import Mathlib

/-!
Verification development for the kuraryu deep-research agent.

The definitions below are a shallow embedding of the repository's core
control loop (`agents/research.py`), its state record (`agents/state.py`
together with the fields initialised in `DeepResearchAgent.research`), and
the provider adapter layer (`tools/search.py`, `tools/kaggle.py`).

External collaborators (the LLM oracle and the search providers) are
modelled as a record of deterministic functions (`Env`): each oracle call
site becomes a function of exactly the data that the Python code feeds
into the corresponding prompt, and each provider becomes a function of
(kind, query, max_results).  Python strings are Lean `String`s; the
line-oriented parsing helpers re-implement the `split("\n")` /
`strip()` / `lstrip("-•")` / `startswith` / `in` operations used by the
code via structural recursion over `String.data`, so that all
definitions evaluate inside the kernel.
-/

namespace KuraryuDR

/-! ### String helpers (embedding Python's str operations) -/

/-- Splits a character list at every occurrence of `sep`; embeds Python's
`str.split(sep)` (always returns at least one segment). -/
def splitChar (sep : Char) : List Char → List (List Char)
  | [] => [[]]
  | x :: xs =>
    match splitChar sep xs with
    | [] => [[x]]
    | cur :: rest => if x = sep then [] :: cur :: rest else (x :: cur) :: rest

/-- ASCII whitespace recognised by the embedding of `str.strip()`. -/
def isWSChar (c : Char) : Bool :=
  c == ' ' || c == '\t' || c == '\n' || c == '\r'

/-- Removes leading and trailing whitespace characters. -/
def trimChars (l : List Char) : List Char :=
  ((l.dropWhile isWSChar).reverse.dropWhile isWSChar).reverse

/-- Embeds Python's `str.strip()` (over the ASCII whitespace used by the
oracle responses that the code parses). -/
def pyStrip (s : String) : String := String.mk (trimChars s.data)

/-- Embeds `response.split("\n")`. -/
def splitLines (s : String) : List String := (splitChar '\n' s.data).map String.mk

/-- Embeds `s.startswith(p)`. -/
def strStarts (p s : String) : Bool := p.data.isPrefixOf s.data

/-- Embeds `s.lstrip("-•")`. -/
def stripBullets (s : String) : String :=
  String.mk (s.data.dropWhile (fun c => c == '-' || c == '•'))

/-- Embeds Python's substring test `needle in hay`. -/
def strContains (hay needle : String) : Bool :=
  hay.data.tails.any (fun t => needle.data.isPrefixOf t)

/-! ### Data model -/

/-- The shape of one record returned by a provider adapter
(title/url/summary-or-content; the fields that the control loop reads). -/
structure ProviderRecord where
  title : String
  url : String
  content : String
deriving DecidableEq, Repr

/-- One evidence record accumulated in `search_results`: a provider record
tagged with the originating sub-query and the provider kind string
(`{"query": subquery, "source": ..., **r}` in `_search_sources`). -/
structure SourceRecord where
  query : String
  source : String
  title : String
  url : String
  content : String
deriving DecidableEq, Repr

/-- The `ResearchState` dictionary threaded through the LangGraph workflow
(fields from `agents/state.py` plus `depth` / `explored_urls` initialised
in `DeepResearchAgent.research`; the unused `messages` channel is
omitted). `explored_urls` is a set in Python; it is embedded as a list
used only through membership and insertion. -/
structure ResearchState where
  query : String
  subqueries : List String
  outline : String
  search_results : List SourceRecord
  article : String
  iteration : Nat
  needs_more_search : Bool
  gaps : List String
  verification_report : String
  depth : Nat
  explored_urls : List String
deriving DecidableEq, Repr

def MAX_ITERATIONS : Nat := 3

def MAX_DEPTH : Nat := 2

/-- The provider kinds exposed by `SearchTools` / `KaggleSearch`. -/
inductive PKind
  | arxiv | web | competition | dataset | notebook | discussion
deriving DecidableEq, Repr

/-- One provider invocation: which provider, with which query string, and
with which effective `max_results`. -/
structure ProviderCall where
  kind : PKind
  q : String
  n : Nat
deriving DecidableEq, Repr

/-- Deterministic stubs for the external collaborators. Each oracle call
site of `research.py` becomes one function of the data the code puts into
the prompt; `prov` is the post-adapter view of the providers (a provider
returns a plain list of records). -/
structure Env where
  plan_response : String → List String → Nat → String
  improve_response : List String → String → String
  coverage_response : List SourceRecord → String → String
  dive_response : List SourceRecord → String → String
  verify_response : List SourceRecord → String → String
  outline_response : List SourceRecord → String → String
  article_response : String → List SourceRecord → String → String
  prov : PKind → String → Nat → List ProviderRecord

/-! ### Oracle-output parsing (one definition per call site, as in the code) -/

/-- `[q.strip() for q in response.split("\n") if q.strip() and not
q.startswith("#")]` from `_generate_subqueries`. -/
def parse_subqueries (resp : String) : List String :=
  (splitLines resp).filterMap fun q =>
    if pyStrip q ≠ "" ∧ strStarts "#" q = false then some (pyStrip q) else none

/-- `[q.strip().lstrip("-•").strip() for q in response.split("\n") if
q.strip()][:len(queries)]` from `_improve_queries`. -/
def parse_improved (resp : String) (queries : List String) : List String :=
  ((splitLines resp).filterMap fun q =>
    if pyStrip q ≠ "" then some (pyStrip (stripBullets (pyStrip q))) else none).take
    queries.length

/-- Gap parsing from `_evaluate_coverage`: keep non-empty lines that do not
start with `不足`, strip bullets, drop empties, cap at 3. -/
def parse_gaps (resp : String) : List String :=
  ((((splitLines resp).filterMap fun line =>
      if pyStrip line ≠ "" ∧ strStarts "不足" line = false then
        some (pyStrip (stripBullets (pyStrip line)))
      else none)).filter fun g => g ≠ "").take 3

/-- `[t.strip().lstrip("-•").strip() for t in response.split("\n") if
t.strip()]` from `_deep_dive`. -/
def parse_titles (resp : String) : List String :=
  (splitLines resp).filterMap fun t =>
    if pyStrip t ≠ "" then some (pyStrip (stripBullets (pyStrip t))) else none

/-! ### Workflow node functions (one per LangGraph node) -/

/-- `_generate_subqueries`: one oracle call, append parsed sub-queries,
increment `iteration`. -/
def generate_subqueries (env : Env) (s : ResearchState) : ResearchState :=
  let response := env.plan_response s.query s.gaps s.iteration
  { s with subqueries := s.subqueries ++ parse_subqueries response,
           iteration := s.iteration + 1 }

/-- `{"query": subquery, "source": src, **r}`. -/
def tagRecord (q src : String) (r : ProviderRecord) : SourceRecord :=
  { query := q, source := src, title := r.title, url := r.url, content := r.content }

/-- The `query_results` accumulated for one sub-query in `_search_sources`:
arxiv (max_results=3), web (max_results=3), Kaggle competitions and Kaggle
datasets (both via `SearchTools` wrappers that leave `KaggleSearch`'s
default `max_results = 5` in place). -/
def per_query_results (env : Env) (q : String) : List SourceRecord :=
  (env.prov .arxiv q 3).map (tagRecord q "arxiv")
    ++ (env.prov .web q 3).map (tagRecord q "web")
    ++ (env.prov .competition q 5).map (tagRecord q "kaggle-competition")
    ++ (env.prov .dataset q 5).map (tagRecord q "kaggle-dataset")

/-- The provider invocations issued for one sub-query in `_search_sources`,
with the effective `max_results` each provider-level function receives. -/
def per_query_calls (q : String) : List ProviderCall :=
  [⟨.arxiv, q, 3⟩, ⟨.web, q, 3⟩, ⟨.competition, q, 5⟩, ⟨.dataset, q, 5⟩]

/-- The re-search of one rewritten query (arxiv and web only, 3 each). -/
def improved_results (env : Env) (q : String) : List SourceRecord :=
  (env.prov .arxiv q 3).map (tagRecord q "arxiv")
    ++ (env.prov .web q 3).map (tagRecord q "web")

/-- Embeds Python's `l[-5:]`. -/
def lastN (n : Nat) (l : List α) : List α := l.drop (l.length - n)

/-- `low_result_queries` in `_search_sources`: the sub-queries of the
batch whose combined `query_results` count is below 2. -/
def low_result_queries (env : Env) (s : ResearchState) : List String :=
  (lastN 5 s.subqueries).filter fun q => (per_query_results env q).length < 2

/-- The rewritten queries produced by `_improve_queries` (the oracle is
invoked only when the low-yield list is non-empty). -/
def improved_queries (env : Env) (s : ResearchState) : List String :=
  if (low_result_queries env s).isEmpty then []
  else parse_improved (env.improve_response (low_result_queries env s) s.query)
    (low_result_queries env s)

/-- `_search_sources`, additionally returning the list of provider
invocations it performs (in order). The batch is the last 5 sub-queries;
low-yield sub-queries are rewritten and re-searched against arxiv and web
only. All returned records are appended to `search_results`
unconditionally. -/
def search_sources_traced (env : Env) (s : ResearchState) :
    ResearchState × List ProviderCall :=
  ({ s with search_results := s.search_results
      ++ ((lastN 5 s.subqueries).map (per_query_results env)).flatten
      ++ ((improved_queries env s).map (improved_results env)).flatten },
   ((lastN 5 s.subqueries).map per_query_calls).flatten
     ++ ((improved_queries env s).map fun q =>
          [(⟨.arxiv, q, 3⟩ : ProviderCall), ⟨.web, q, 3⟩]).flatten)

/-- `_search_sources` (state part). -/
def search_sources (env : Env) (s : ResearchState) : ResearchState :=
  (search_sources_traced env s).1

/-- `_evaluate_coverage`: one oracle call over the first 30 records; the
sentinel check is `"SUFFICIENT" in response`. -/
def evaluate_coverage (env : Env) (s : ResearchState) : ResearchState :=
  let response := env.coverage_response (s.search_results.take 30) s.query
  if strContains response "SUFFICIENT" then
    { s with needs_more_search := false, gaps := [] }
  else
    { s with needs_more_search := true, gaps := parse_gaps response }

/-- `_should_continue_search` (conditional-edge router; returns the next
node name, as in the code). -/
def should_continue_search (s : ResearchState) : String :=
  if s.needs_more_search ∧ s.iteration < MAX_ITERATIONS then "generate_subqueries"
  else "deep_dive"

/-- `arxiv_results` in `_deep_dive`: unexplored academic records. -/
def dive_candidates (s : ResearchState) : List SourceRecord :=
  s.search_results.filter fun r =>
    r.source == "arxiv" && !(s.explored_urls.contains r.url)

/-- The titles parsed from the deep-dive oracle call (which is shown only
the first 10 candidates). -/
def dive_titles (env : Env) (s : ResearchState) : List String :=
  parse_titles (env.dive_response ((dive_candidates s).take 10) s.query)

/-- `selected` in `_deep_dive`: filter the FULL candidate list by
substring containment against the returned titles, keep at most 2. -/
def dive_anchors (env : Env) (s : ResearchState) : List SourceRecord :=
  ((dive_candidates s).filter fun r =>
    (dive_titles env s).any fun t => strContains r.title t).take 2

/-- The inner loop body of `_deep_dive`: skip a related record whose url
is already explored, otherwise append it as an `arxiv-deep` record and
mark its url explored. -/
def follow_step (paper : SourceRecord) (acc : List SourceRecord × List String)
    (r : ProviderRecord) : List SourceRecord × List String :=
  if acc.2.contains r.url then acc
  else
    (acc.1 ++ [{ query := "related to: " ++ paper.title, source := "arxiv-deep",
                 title := r.title, url := r.url, content := r.content }],
     r.url :: acc.2)

/-- Per-anchor processing: mark the anchor url explored, then fold its
3 related-search results through `follow_step`. -/
def follow_anchor (env : Env) (acc : List SourceRecord × List String)
    (paper : SourceRecord) : List SourceRecord × List String :=
  (env.prov .arxiv paper.title 3).foldl (follow_step paper)
    (acc.1, acc.2.insert paper.url)

/-- The `new_results` / `new_explored` accumulation over all selected
anchors. -/
def follow_anchors (env : Env) (anchors : List SourceRecord)
    (explored : List String) : List SourceRecord × List String :=
  anchors.foldl (follow_anchor env) ([], explored)

/-- `_deep_dive`. -/
def deep_dive (env : Env) (s : ResearchState) : ResearchState :=
  if MAX_DEPTH ≤ s.depth then s
  else
    let cands := dive_candidates s
    if cands.isEmpty then { s with depth := s.depth + 1 }
    else
      let selected := dive_anchors env s
      if selected.isEmpty then { s with depth := s.depth + 1 }
      else
        let p := follow_anchors env selected s.explored_urls
        { s with search_results := s.search_results ++ p.1,
                 depth := s.depth + 1,
                 explored_urls := p.2 }

/-- `_should_continue_deep_dive` (router; note the `arxiv-deep` check is
over ALL accumulated results, as in the code). -/
def should_continue_deep_dive (s : ResearchState) : String :=
  if s.depth < MAX_DEPTH ∧
      (s.search_results.filter fun r => r.source == "arxiv-deep") ≠ [] then
    "deep_dive"
  else "verify_information"

/-- `_verify_information`. -/
def verify_information (env : Env) (s : ResearchState) : ResearchState :=
  { s with verification_report := env.verify_response (s.search_results.take 20) s.query }

/-- `_generate_outline`. -/
def generate_outline (env : Env) (s : ResearchState) : ResearchState :=
  { s with outline := env.outline_response s.search_results s.query }

/-- `_generate_article`. -/
def generate_article (env : Env) (s : ResearchState) : ResearchState :=
  { s with article := env.article_response s.outline s.search_results s.verification_report }

/-- The `initial_state` built in `DeepResearchAgent.research`. -/
def initial_state (query : String) : ResearchState :=
  { query := query, subqueries := [], outline := "", search_results := [],
    article := "", iteration := 0, needs_more_search := false, gaps := [],
    verification_report := "", depth := 0, explored_urls := [] }

/-! ### The workflow state machine (`_build_graph`) -/

/-- The LangGraph nodes plus entry/terminal control positions. -/
inductive Stage
  | planning | searching | evaluating | deepdiving | verifying | outlining
  | composing | done
deriving DecidableEq, Repr

abbrev Config := Stage × ResearchState

/-- One transition of the compiled workflow graph: executing the current
node and following the (conditional) edge chosen by the router on the
node's output state. -/
inductive Step (env : Env) : Config → Config → Prop where
  | plan (s : ResearchState) :
      Step env (.planning, s) (.searching, generate_subqueries env s)
  | search (s : ResearchState) :
      Step env (.searching, s) (.evaluating, search_sources env s)
  | eval_loop (s : ResearchState)
      (h : should_continue_search (evaluate_coverage env s) = "generate_subqueries") :
      Step env (.evaluating, s) (.planning, evaluate_coverage env s)
  | eval_dive (s : ResearchState)
      (h : should_continue_search (evaluate_coverage env s) = "deep_dive") :
      Step env (.evaluating, s) (.deepdiving, evaluate_coverage env s)
  | dive_loop (s : ResearchState)
      (h : should_continue_deep_dive (deep_dive env s) = "deep_dive") :
      Step env (.deepdiving, s) (.deepdiving, deep_dive env s)
  | dive_verify (s : ResearchState)
      (h : should_continue_deep_dive (deep_dive env s) = "verify_information") :
      Step env (.deepdiving, s) (.verifying, deep_dive env s)
  | verify (s : ResearchState) :
      Step env (.verifying, s) (.outlining, verify_information env s)
  | outline (s : ResearchState) :
      Step env (.outlining, s) (.composing, generate_outline env s)
  | compose (s : ResearchState) :
      Step env (.composing, s) (.done, generate_article env s)

/-- A configuration reachable in the run started on `query`. -/
def Reachable (env : Env) (query : String) (c : Config) : Prop :=
  Relation.ReflTransGen (Step env) (Stage.planning, initial_state query) c

/-! ### Provider adapter layer (`tools/search.py`, `tools/kaggle.py`)

A backend models the underlying client call (`arxiv.Client`, `DDGS`, the
Kaggle API): it either returns the raw result list or fails.  The record
reshaping done inside each `try` block is 1-to-1 and is modelled as the
identity on `ProviderRecord`s; the control-relevant behaviour — the
`except Exception: return []` wrapper, the `authenticated` guard and the
slicing — is kept exactly. -/

abbrev Backend := String → Nat → Except String (List ProviderRecord)

/-- `SearchTools.search_arxiv`. -/
def search_arxiv (backend : Backend) (q : String) (max_results : Nat) :
    List ProviderRecord :=
  match backend q max_results with
  | .ok results => results
  | .error _ => []

/-- `SearchTools.search_web`. -/
def search_web (backend : Backend) (q : String) (max_results : Nat) :
    List ProviderRecord :=
  match backend q max_results with
  | .ok results => results
  | .error _ => []

/-- `KaggleSearch.search_competitions`: unauthenticated clients return `[]`;
otherwise `competitions_list(search=query)[:max_results]` inside try/except. -/
def kaggle_search_competitions (authenticated : Bool)
    (backend : String → Except String (List ProviderRecord)) (q : String)
    (max_results : Nat) : List ProviderRecord :=
  if authenticated = false then []
  else
    match backend q with
    | .ok comps => comps.take max_results
    | .error _ => []

/-- `KaggleSearch.search_datasets`. -/
def kaggle_search_datasets (authenticated : Bool) (backend : Backend)
    (q : String) (max_results : Nat) : List ProviderRecord :=
  if authenticated = false then []
  else
    match backend q max_results with
    | .ok ds => ds.take max_results
    | .error _ => []

/-- `KaggleSearch.search_notebooks`. -/
def kaggle_search_notebooks (authenticated : Bool) (backend : Backend)
    (q : String) (max_results : Nat) : List ProviderRecord :=
  if authenticated = false then []
  else
    match backend q max_results with
    | .ok ks => ks
    | .error _ => []

/-- `KaggleSearch.search_discussions`: web search over a site-restricted
query, no authentication guard, try/except to `[]`. -/
def kaggle_search_discussions (backend : Backend) (q : String)
    (max_results : Nat) : List ProviderRecord :=
  match backend ("site:kaggle.com/discussions " ++ q) max_results with
  | .ok rs => rs
  | .error _ => []

/-! ### Derived notions used by the theorems -/

/-- The number of `arxiv-deep` (academic-followup) records accumulated so
far; `_should_continue_deep_dive` tests exactly this filter for
non-emptiness. -/
def countDeep (s : ResearchState) : Nat :=
  (s.search_results.filter fun r => r.source == "arxiv-deep").length

/-- `InsertedFresh ex l ex'` holds when the records of `l` can be inserted
in order starting from the explored set `ex` and ending in `ex'`, such
that the explored set only ever grows, each record's url is absent from
the explored set at the moment it is inserted, and is added to it
immediately afterwards.  This is the "never added if its url is already
explored at the time of insertion" discipline of `_deep_dive`. -/
inductive InsertedFresh : List String → List SourceRecord → List String → Prop
  | nil {ex ex' : List String} (hsub : ex ⊆ ex') : InsertedFresh ex [] ex'
  | cons {ex ex₁ ex' : List String} {r : SourceRecord} {rs : List SourceRecord}
      (hgrow : ex ⊆ ex₁) (hfresh : r.url ∉ ex₁)
      (htail : InsertedFresh (r.url :: ex₁) rs ex') :
      InsertedFresh ex (r :: rs) ex'

/-- The run-wide invariant maintained by every transition of the workflow
graph. -/
def Inv (c : Config) : Prop :=
  c.2.iteration ≤ MAX_ITERATIONS ∧ c.2.depth ≤ MAX_DEPTH ∧
  (c.1 = .planning → c.2.iteration < MAX_ITERATIONS) ∧
  ((c.1 = .planning ∨ c.1 = .searching ∨ c.1 = .evaluating) →
    c.2.depth = 0 ∧ countDeep c.2 = 0) ∧
  (c.1 = .deepdiving → c.2.depth ≤ 1 ∧ (c.2.depth = 0 → countDeep c.2 = 0))

/-! ### Concrete stub environments and states (used by witnesses) -/

/-- The degenerate environment: every oracle response is empty, every
provider returns no results. -/
def trivEnv : Env :=
  { plan_response := fun _ _ _ => "", improve_response := fun _ _ => "",
    coverage_response := fun _ _ => "", dive_response := fun _ _ => "",
    verify_response := fun _ _ => "", outline_response := fun _ _ => "",
    article_response := fun _ _ _ => "", prov := fun _ _ _ => [] }

/-- A state holding exactly one pending sub-query. -/
def oneQueryState : ResearchState :=
  { initial_state "q" with subqueries := ["q1"] }

/-- An environment in which the planner emits one sub-query, arxiv returns
one paper for it, coverage is immediately sufficient, the deep-dive oracle
selects that paper, and the related-work search returns one fresh paper —
so the deep-dive loop actually repeats once. -/
def loopEnv : Env :=
  { trivEnv with
    plan_response := fun _ _ _ => "sq1",
    coverage_response := fun _ _ => "SUFFICIENT",
    dive_response := fun _ _ => "PaperT",
    prov := fun k q _ =>
      match k, q with
      | .arxiv, "sq1" => [⟨"PaperT", "u1", ""⟩]
      | .arxiv, "PaperT" => [⟨"RelT", "u2", ""⟩]
      | _, _ => [] }

/-- The state in which `loopEnv`'s run first enters the deep-dive stage. -/
def loopDiveState : ResearchState :=
  evaluate_coverage loopEnv (search_sources loopEnv (generate_subqueries loopEnv (initial_state "lq")))

/-- An academic record with the given title and url. -/
def mkArxivRecord (t u : String) : SourceRecord :=
  { query := "sq", source := "arxiv", title := t, url := u, content := "" }

/-- Eleven accumulated academic records: one more than the deep-dive
oracle prompt window of 10. -/
def elevenState : ResearchState :=
  { initial_state "q" with search_results :=
      [mkArxivRecord "T0" "u0", mkArxivRecord "T1" "u1", mkArxivRecord "T2" "u2",
       mkArxivRecord "T3" "u3", mkArxivRecord "T4" "u4", mkArxivRecord "T5" "u5",
       mkArxivRecord "T6" "u6", mkArxivRecord "T7" "u7", mkArxivRecord "T8" "u8",
       mkArxivRecord "T9" "u9", mkArxivRecord "T10" "u10"] }

/-- An oracle that answers the deep-dive selection with the title of the
eleventh candidate — a title never shown in the prompt. -/
def envNine : Env := { trivEnv with dive_response := fun _ _ => "T10" }

/-- Providers that return the same url `"u"` for both the original
sub-query and its rewrite. -/
def envTen : Env :=
  { trivEnv with
    improve_response := fun _ _ => "q2",
    prov := fun k q _ =>
      match k, q with
      | .arxiv, "q1" => [⟨"T1", "u", ""⟩]
      | .arxiv, "q2" => [⟨"T2", "u", ""⟩]
      | _, _ => [] }

/-- One pending sub-query and an already-accumulated record with the same
url the providers will return again. -/
def dupState : ResearchState :=
  { initial_state "q" with
    subqueries := ["q1"],
    search_results := [{ query := "q0", source := "web", title := "T0", url := "u", content := "" }] }

/-- An environment whose coverage oracle always emits the sufficiency
sentinel. -/
def suffEnv : Env := { trivEnv with coverage_response := fun _ _ => "SUFFICIENT" }

/-- A backend that always fails. -/
def failingBackend : Backend := fun _ _ => .error "network failure"

/-- A one-argument failing backend (competition search). -/
def failingBackend1 : String → Except String (List ProviderRecord) :=
  fun _ => .error "network failure"

/-- A state already at the deep-dive depth bound. -/
def depthTwoState : ResearchState := { initial_state "d" with depth := 2 }

/-- The final state of the run of `trivEnv` on query "tq": three
planning/search/evaluation rounds (the empty oracle response parses to no
gaps, so the loop runs to the iteration cap), one no-candidate deep-dive
round, then verification, outline and article. -/
def trivFinalState : ResearchState :=
  generate_article trivEnv (generate_outline trivEnv (verify_information trivEnv
    (deep_dive trivEnv (evaluate_coverage trivEnv (search_sources trivEnv
    (generate_subqueries trivEnv (evaluate_coverage trivEnv (search_sources trivEnv
    (generate_subqueries trivEnv (evaluate_coverage trivEnv (search_sources trivEnv
    (generate_subqueries trivEnv (initial_state "tq")))))))))))))

/-! ### Field-preservation facts for the node functions -/

theorem generate_subqueries_iteration (env : Env) (s : ResearchState) :
    (generate_subqueries env s).iteration = s.iteration + 1 := rfl

theorem generate_subqueries_depth (env : Env) (s : ResearchState) :
    (generate_subqueries env s).depth = s.depth := rfl

theorem generate_subqueries_results (env : Env) (s : ResearchState) :
    (generate_subqueries env s).search_results = s.search_results := rfl

theorem search_sources_iteration (env : Env) (s : ResearchState) :
    (search_sources env s).iteration = s.iteration := rfl

theorem search_sources_depth (env : Env) (s : ResearchState) :
    (search_sources env s).depth = s.depth := rfl

theorem search_sources_results (env : Env) (s : ResearchState) :
    (search_sources env s).search_results = s.search_results
      ++ ((lastN 5 s.subqueries).map (per_query_results env)).flatten
      ++ ((improved_queries env s).map (improved_results env)).flatten := rfl

theorem evaluate_coverage_iteration (env : Env) (s : ResearchState) :
    (evaluate_coverage env s).iteration = s.iteration := by
  simp only [evaluate_coverage]
  split <;> rfl

theorem evaluate_coverage_depth (env : Env) (s : ResearchState) :
    (evaluate_coverage env s).depth = s.depth := by
  simp only [evaluate_coverage]
  split <;> rfl

theorem evaluate_coverage_results (env : Env) (s : ResearchState) :
    (evaluate_coverage env s).search_results = s.search_results := by
  simp only [evaluate_coverage]
  split <;> rfl

theorem verify_information_iteration (env : Env) (s : ResearchState) :
    (verify_information env s).iteration = s.iteration := rfl

theorem verify_information_depth (env : Env) (s : ResearchState) :
    (verify_information env s).depth = s.depth := rfl

theorem generate_outline_iteration (env : Env) (s : ResearchState) :
    (generate_outline env s).iteration = s.iteration := rfl

theorem generate_outline_depth (env : Env) (s : ResearchState) :
    (generate_outline env s).depth = s.depth := rfl

theorem generate_article_iteration (env : Env) (s : ResearchState) :
    (generate_article env s).iteration = s.iteration := rfl

theorem generate_article_depth (env : Env) (s : ResearchState) :
    (generate_article env s).depth = s.depth := rfl

theorem deep_dive_iteration (env : Env) (s : ResearchState) :
    (deep_dive env s).iteration = s.iteration := by
  simp only [deep_dive]
  split
  · rfl
  · split
    · rfl
    · split <;> rfl

theorem deep_dive_depth (env : Env) (s : ResearchState) :
    (deep_dive env s).depth = if s.depth < MAX_DEPTH then s.depth + 1 else s.depth := by
  by_cases h : MAX_DEPTH ≤ s.depth
  · rw [if_neg (by omega)]
    simp only [deep_dive, if_pos h]
  · rw [if_pos (by omega)]
    simp only [deep_dive, if_neg h]
    split
    · rfl
    · split <;> rfl

/-! ### Which provider kinds tag the records of a search round -/

theorem source_of_mem_per_query_results {env : Env} {q : String} {r : SourceRecord}
    (h : r ∈ per_query_results env q) :
    r.source = "arxiv" ∨ r.source = "web" ∨ r.source = "kaggle-competition" ∨
      r.source = "kaggle-dataset" := by
  simp only [per_query_results, List.mem_append, List.mem_map] at h
  rcases h with ((⟨p, _, hp⟩ | ⟨p, _, hp⟩) | ⟨p, _, hp⟩) | ⟨p, _, hp⟩ <;>
    rw [← hp] <;> simp [tagRecord]

theorem source_of_mem_improved_results {env : Env} {q : String} {r : SourceRecord}
    (h : r ∈ improved_results env q) : r.source = "arxiv" ∨ r.source = "web" := by
  simp only [improved_results, List.mem_append, List.mem_map] at h
  rcases h with ⟨p, _, hp⟩ | ⟨p, _, hp⟩ <;> rw [← hp] <;> simp [tagRecord]

theorem countDeep_search_sources (env : Env) (s : ResearchState) :
    countDeep (search_sources env s) = countDeep s := by
  have h1 : ∀ r ∈ ((lastN 5 s.subqueries).map (per_query_results env)).flatten,
      ¬(r.source == "arxiv-deep") = true := by
    intro r hr
    rw [List.mem_flatten] at hr
    obtain ⟨l, hl, hrl⟩ := hr
    rw [List.mem_map] at hl
    obtain ⟨q, _, rfl⟩ := hl
    rcases source_of_mem_per_query_results hrl with h | h | h | h <;> simp [h]
  have h2 : ∀ r ∈ ((improved_queries env s).map (improved_results env)).flatten,
      ¬(r.source == "arxiv-deep") = true := by
    intro r hr
    rw [List.mem_flatten] at hr
    obtain ⟨l, hl, hrl⟩ := hr
    rw [List.mem_map] at hl
    obtain ⟨q, _, rfl⟩ := hl
    rcases source_of_mem_improved_results hrl with h | h <;> simp [h]
  unfold countDeep
  rw [search_sources_results, List.filter_append, List.filter_append,
    List.filter_eq_nil_iff.mpr h1, List.filter_eq_nil_iff.mpr h2]
  simp

/-! ### Router inversion -/

theorem continue_search_loop {s : ResearchState}
    (h : should_continue_search s = "generate_subqueries") :
    s.needs_more_search = true ∧ s.iteration < MAX_ITERATIONS := by
  unfold should_continue_search at h
  split at h
  · next hc => exact hc
  · exact absurd h (by decide)

theorem continue_search_of_sufficient {s : ResearchState}
    (h : s.needs_more_search = false) : should_continue_search s = "deep_dive" := by
  unfold should_continue_search
  rw [if_neg]
  intro hc
  rw [h] at hc
  exact absurd hc.1 (by decide)

theorem continue_dive_loop {s : ResearchState}
    (h : should_continue_deep_dive s = "deep_dive") :
    s.depth < MAX_DEPTH ∧
      (s.search_results.filter fun r => r.source == "arxiv-deep") ≠ [] := by
  unfold should_continue_deep_dive at h
  split at h
  · next hc => exact hc
  · exact absurd h (by decide)

/-! ### The insertion discipline of the deep-dive round -/

theorem inserted_fresh_subset {ex ex' : List String} {l : List SourceRecord}
    (h : InsertedFresh ex l ex') : ex ⊆ ex' := by
  induction h with
  | nil hsub => exact hsub
  | cons hgrow _ _ ih => exact fun x hx => ih (List.mem_cons_of_mem _ (hgrow hx))

theorem inserted_fresh_mem_url {ex ex' : List String} {l : List SourceRecord}
    (h : InsertedFresh ex l ex') : ∀ r ∈ l, r.url ∈ ex' := by
  induction h with
  | nil _ => intro r hr; cases hr
  | cons _ _ htail ih =>
    intro r hr
    rcases List.mem_cons.mp hr with rfl | hmem
    · exact inserted_fresh_subset htail (List.mem_cons_self _ _)
    · exact ih r hmem

theorem inserted_fresh_not_mem_init {ex ex' : List String} {l : List SourceRecord}
    (h : InsertedFresh ex l ex') : ∀ r ∈ l, r.url ∉ ex := by
  induction h with
  | nil _ => intro r hr; cases hr
  | cons hgrow hfresh _ ih =>
    intro x hx hmem
    rcases List.mem_cons.mp hx with rfl | hmemtail
    · exact hfresh (hgrow hmem)
    · exact ih x hmemtail (List.mem_cons_of_mem _ (hgrow hmem))

theorem inserted_fresh_weaken {ex₀ ex ex' : List String} {l : List SourceRecord}
    (hsub : ex₀ ⊆ ex) (h : InsertedFresh ex l ex') : InsertedFresh ex₀ l ex' := by
  cases h with
  | nil h' => exact .nil (hsub.trans h')
  | cons hgrow hfresh htail => exact .cons (hsub.trans hgrow) hfresh htail

theorem inserted_fresh_append {ex ex₁ ex₂ : List String}
    {a b : List SourceRecord} (h1 : InsertedFresh ex a ex₁)
    (h2 : InsertedFresh ex₁ b ex₂) : InsertedFresh ex (a ++ b) ex₂ := by
  induction h1 with
  | nil hsub => exact inserted_fresh_weaken hsub h2
  | cons hgrow hfresh _ ih => exact .cons hgrow hfresh (ih h2)

theorem follow_fold_spec (paper : SourceRecord) (rel : List ProviderRecord) :
    ∀ (rs0 : List SourceRecord) (ex0 : List String),
    ∃ add ex1, rel.foldl (follow_step paper) (rs0, ex0) = (rs0 ++ add, ex1) ∧
      InsertedFresh ex0 add ex1 ∧ ∀ r ∈ add, r.source = "arxiv-deep" := by
  induction rel with
  | nil =>
    intro rs0 ex0
    exact ⟨[], ex0, by simp, .nil (fun x hx => hx), by simp⟩
  | cons r rest ih =>
    intro rs0 ex0
    simp only [List.foldl_cons]
    by_cases hc : ex0.contains r.url
    · have hmem : r.url ∈ ex0 := by simpa using hc
      rw [show follow_step paper (rs0, ex0) r = (rs0, ex0) from by
        simp [follow_step, hmem]]
      exact ih rs0 ex0
    · have hurl : r.url ∉ ex0 := by simpa using hc
      have hstep : follow_step paper (rs0, ex0) r =
          (rs0 ++ [{ query := "related to: " ++ paper.title, source := "arxiv-deep",
                     title := r.title, url := r.url, content := r.content }],
           r.url :: ex0) := by
        simp [follow_step, hurl]
      rw [hstep]
      obtain ⟨add, ex1, heq, hf, hsrc⟩ := ih
        (rs0 ++ [{ query := "related to: " ++ paper.title, source := "arxiv-deep",
                   title := r.title, url := r.url, content := r.content }])
        (r.url :: ex0)
      refine ⟨{ query := "related to: " ++ paper.title, source := "arxiv-deep",
                title := r.title, url := r.url, content := r.content } :: add,
              ex1, ?_, ?_, ?_⟩
      · rw [heq, List.append_assoc]
        rfl
      · exact .cons (fun x hx => hx) hurl hf
      · intro x hx
        rcases List.mem_cons.mp hx with rfl | hmem
        · rfl
        · exact hsrc x hmem

theorem follow_anchors_fold_spec (env : Env) (anchors : List SourceRecord) :
    ∀ (rs0 : List SourceRecord) (ex0 : List String),
    ∃ add ex1, anchors.foldl (follow_anchor env) (rs0, ex0) = (rs0 ++ add, ex1) ∧
      InsertedFresh ex0 add ex1 ∧ (∀ r ∈ add, r.source = "arxiv-deep") ∧
      ∀ a ∈ anchors, a.url ∈ ex1 := by
  induction anchors with
  | nil =>
    intro rs0 ex0
    exact ⟨[], ex0, by simp, .nil (fun x hx => hx), by simp, by simp⟩
  | cons paper rest ih =>
    intro rs0 ex0
    simp only [List.foldl_cons]
    obtain ⟨add1, ex1, heq1, hf1, hs1⟩ :=
      follow_fold_spec paper (env.prov .arxiv paper.title 3) rs0 (ex0.insert paper.url)
    have h1 : follow_anchor env (rs0, ex0) paper = (rs0 ++ add1, ex1) := heq1
    obtain ⟨add2, ex2, heq2, hf2, hs2, hmem2⟩ := ih (rs0 ++ add1) ex1
    refine ⟨add1 ++ add2, ex2, ?_, ?_, ?_, ?_⟩
    · rw [h1, heq2, List.append_assoc]
    · exact inserted_fresh_append
        (inserted_fresh_weaken (List.subset_insert _ _) hf1) hf2
    · intro x hx
      rcases List.mem_append.mp hx with hmem | hmem
      · exact hs1 x hmem
      · exact hs2 x hmem
    · intro a ha
      rcases List.mem_cons.mp ha with rfl | hmem
      · exact inserted_fresh_subset hf2
          (inserted_fresh_subset hf1 (List.mem_insert_self _ _))
      · exact hmem2 a hmem

/-- The full effect of one `_deep_dive` round on `search_results` and
`explored_urls`: the round appends a batch of `arxiv-deep` records whose
insertion obeys the freshness discipline, and (when the round ran its
body) every selected anchor's url ends up explored. -/
theorem deep_dive_spec (env : Env) (s : ResearchState) :
    ∃ add, (deep_dive env s).search_results = s.search_results ++ add ∧
      InsertedFresh s.explored_urls add (deep_dive env s).explored_urls ∧
      (∀ r ∈ add, r.source = "arxiv-deep") ∧
      (s.depth < MAX_DEPTH → ∀ a ∈ dive_anchors env s,
        a.url ∈ (deep_dive env s).explored_urls) := by
  by_cases hd : MAX_DEPTH ≤ s.depth
  · have he : deep_dive env s = s := by simp [deep_dive, hd]
    refine ⟨[], by rw [he]; simp, ?_, by simp, ?_⟩
    · rw [he]
      exact .nil (fun x hx => hx)
    · intro hlt
      omega
  · by_cases hc : (dive_candidates s).isEmpty
    · have he : deep_dive env s = { s with depth := s.depth + 1 } := by
        simp [deep_dive, hd, hc]
      have hanch : dive_anchors env s = [] := by
        simp [dive_anchors, List.isEmpty_iff.mp hc]
      refine ⟨[], by rw [he]; simp, ?_, by simp, ?_⟩
      · rw [he]
        exact .nil (fun x hx => hx)
      · intro _ a ha
        rw [hanch] at ha
        cases ha
    · by_cases hsel : (dive_anchors env s).isEmpty
      · have he : deep_dive env s = { s with depth := s.depth + 1 } := by
          simp [deep_dive, hd, hc, hsel]
        refine ⟨[], by rw [he]; simp, ?_, by simp, ?_⟩
        · rw [he]
          exact .nil (fun x hx => hx)
        · intro _ a ha
          rw [List.isEmpty_iff.mp hsel] at ha
          cases ha
      · have he : deep_dive env s =
            { s with
              search_results := s.search_results
                ++ (follow_anchors env (dive_anchors env s) s.explored_urls).1,
              depth := s.depth + 1,
              explored_urls := (follow_anchors env (dive_anchors env s) s.explored_urls).2 } := by
          simp [deep_dive, hd, hc, hsel]
        obtain ⟨add, ex1, heq, hf, hsrc, hmem⟩ :=
          follow_anchors_fold_spec env (dive_anchors env s) [] s.explored_urls
        have hfa : follow_anchors env (dive_anchors env s) s.explored_urls = (add, ex1) := by
          rw [follow_anchors, heq]
          simp
        refine ⟨add, ?_, ?_, hsrc, ?_⟩
        · rw [he, hfa]
        · rw [he, hfa]
          exact hf
        · intro _ a ha
          rw [he, hfa]
          exact hmem a ha

/-! ### The run-wide invariant -/

theorem inv_init (q : String) : Inv (Stage.planning, initial_state q) := by
  refine ⟨?_, ?_, ?_, ?_, ?_⟩
  · simp [initial_state, MAX_ITERATIONS]
  · simp [initial_state, MAX_DEPTH]
  · intro _
    simp [initial_state, MAX_ITERATIONS]
  · intro _
    simp [initial_state, countDeep]
  · intro h
    cases h

theorem inv_step {env : Env} {c c' : Config} (h : Step env c c') (hI : Inv c) :
    Inv c' := by
  obtain ⟨hIter, hDepth, hPlan, hEarly, hDive⟩ := hI
  cases h with
  | plan s =>
    dsimp only at *
    have hlt := hPlan rfl
    have hE := hEarly (Or.inl rfl)
    refine ⟨?_, ?_, ?_, ?_, ?_⟩
    · rw [generate_subqueries_iteration]
      omega
    · rw [generate_subqueries_depth]
      exact hDepth
    · intro hx
      cases hx
    · intro _
      constructor
      · rw [generate_subqueries_depth]
        exact hE.1
      · show countDeep (generate_subqueries env s) = 0
        unfold countDeep
        rw [generate_subqueries_results]
        exact hE.2
    · intro hx
      cases hx
  | search s =>
    dsimp only at *
    have hE := hEarly (Or.inr (Or.inl rfl))
    refine ⟨?_, ?_, ?_, ?_, ?_⟩
    · rw [search_sources_iteration]
      exact hIter
    · rw [search_sources_depth]
      exact hDepth
    · intro hx
      cases hx
    · intro _
      exact ⟨by rw [search_sources_depth]; exact hE.1,
             by rw [countDeep_search_sources]; exact hE.2⟩
    · intro hx
      cases hx
  | eval_loop s hg =>
    dsimp only at *
    obtain ⟨hb, hit⟩ := continue_search_loop hg
    have hE := hEarly (Or.inr (Or.inr rfl))
    refine ⟨?_, ?_, ?_, ?_, ?_⟩
    · dsimp only
      omega
    · rw [evaluate_coverage_depth]
      exact hDepth
    · intro _
      exact hit
    · intro _
      exact ⟨by rw [evaluate_coverage_depth]; exact hE.1,
             by unfold countDeep; rw [evaluate_coverage_results]; exact hE.2⟩
    · intro hx
      cases hx
  | eval_dive s hg =>
    dsimp only at *
    have hE := hEarly (Or.inr (Or.inr rfl))
    refine ⟨?_, ?_, ?_, ?_, ?_⟩
    · rw [evaluate_coverage_iteration]
      exact hIter
    · rw [evaluate_coverage_depth]
      exact hDepth
    · intro hx
      cases hx
    · rintro (hx | hx | hx) <;> cases hx
    · intro _
      constructor
      · rw [evaluate_coverage_depth, hE.1]
        omega
      · intro _
        unfold countDeep
        rw [evaluate_coverage_results]
        exact hE.2
  | dive_loop s hg =>
    dsimp only at *
    obtain ⟨hd2, _⟩ := continue_dive_loop hg
    have hD := hDive rfl
    refine ⟨?_, ?_, ?_, ?_, ?_⟩
    · rw [deep_dive_iteration]
      exact hIter
    · dsimp only
      omega
    · intro hx
      cases hx
    · rintro (hx | hx | hx) <;> cases hx
    · intro _
      refine ⟨by dsimp only [MAX_DEPTH] at hd2 ⊢; omega, ?_⟩
      intro h0
      dsimp only at h0
      rw [deep_dive_depth] at h0
      split at h0 <;> omega
  | dive_verify s hg =>
    dsimp only at *
    have hD := hDive rfl
    refine ⟨?_, ?_, ?_, ?_, ?_⟩
    · rw [deep_dive_iteration]
      exact hIter
    · rw [deep_dive_depth]
      split <;> omega
    · intro hx
      cases hx
    · rintro (hx | hx | hx) <;> cases hx
    · intro hx
      cases hx
  | verify s =>
    dsimp only at *
    refine ⟨hIter, hDepth, ?_, ?_, ?_⟩
    · intro hx
      cases hx
    · rintro (hx | hx | hx) <;> cases hx
    · intro hx
      cases hx
  | outline s =>
    dsimp only at *
    refine ⟨hIter, hDepth, ?_, ?_, ?_⟩
    · intro hx
      cases hx
    · rintro (hx | hx | hx) <;> cases hx
    · intro hx
      cases hx
  | compose s =>
    dsimp only at *
    refine ⟨hIter, hDepth, ?_, ?_, ?_⟩
    · intro hx
      cases hx
    · rintro (hx | hx | hx) <;> cases hx
    · intro hx
      cases hx

theorem reachable_inv {env : Env} {q : String} {c : Config}
    (h : Reachable env q c) : Inv c := by
  unfold Reachable at h
  induction h with
  | refl => exact inv_init q
  | tail _ hstep ih => exact inv_step hstep ih

/-! ### Determinism of the workflow graph -/

theorem step_deterministic {env : Env} {c c₁ c₂ : Config}
    (h1 : Step env c c₁) (h2 : Step env c c₂) : c₁ = c₂ := by
  cases h1 <;> cases h2 <;> first
    | rfl
    | (rename_i hA hB
       rw [hA] at hB
       exact absurd hB (by decide))

theorem done_no_step {env : Env} {s : ResearchState} {c : Config}
    (h : Step env (Stage.done, s) c) : False := by
  cases h

theorem reaches_done_unique {env : Env} {a : Config} {s₁ s₂ : ResearchState}
    (h1 : Relation.ReflTransGen (Step env) a (Stage.done, s₁))
    (h2 : Relation.ReflTransGen (Step env) a (Stage.done, s₂)) : s₁ = s₂ := by
  induction h1 using Relation.ReflTransGen.head_induction_on generalizing s₂ with
  | refl =>
    rcases h2.cases_head with heq | ⟨c, hstep, _⟩
    · exact congrArg Prod.snd heq
    · exact absurd hstep done_no_step
  | head hstep _ ih =>
    rcases h2.cases_head with heq | ⟨c, hstep2, htail⟩
    · subst heq
      exact absurd hstep done_no_step
    · have hc := step_deterministic hstep hstep2
      subst hc
      exact ih htail

/-! ### The provider invocations of a search round -/

theorem mem_trace_calls {env : Env} {s : ResearchState} {c : ProviderCall}
    (h : c ∈ (search_sources_traced env s).2) :
    (c.kind = PKind.arxiv ∧ c.n = 3) ∨ (c.kind = PKind.web ∧ c.n = 3) ∨
      (c.kind = PKind.competition ∧ c.n = 5) ∨
      (c.kind = PKind.dataset ∧ c.n = 5) := by
  have htr : (search_sources_traced env s).2 =
      ((lastN 5 s.subqueries).map per_query_calls).flatten
        ++ ((improved_queries env s).map fun q =>
             [(⟨.arxiv, q, 3⟩ : ProviderCall), ⟨.web, q, 3⟩]).flatten := rfl
  rw [htr] at h
  rcases List.mem_append.mp h with hm | hm
  · rw [List.mem_flatten] at hm
    obtain ⟨l, hl, hcl⟩ := hm
    rw [List.mem_map] at hl
    obtain ⟨q, _, rfl⟩ := hl
    simp only [per_query_calls, List.mem_cons, List.not_mem_nil, or_false] at hcl
    rcases hcl with rfl | rfl | rfl | rfl <;> simp
  · rw [List.mem_flatten] at hm
    obtain ⟨l, hl, hcl⟩ := hm
    rw [List.mem_map] at hl
    obtain ⟨q, _, rfl⟩ := hl
    simp only [List.mem_cons, List.not_mem_nil, or_false] at hcl
    rcases hcl with rfl | rfl <;> simp

/-! ### The claims -/

/-- Claim C1, counterexample.  With a concrete environment and one pending
sub-query, the search round issues exactly four provider invocations —
academic (3), web (3), platform-competition (5), platform-dataset (5) —
so, contrary to the claim, the notebook and discussion providers are never
queried, and the competition provider is asked for 5 results, not 3. -/
theorem search_fanout_counterexample :
    (search_sources_traced trivEnv oneQueryState).2 =
      [⟨PKind.arxiv, "q1", 3⟩, ⟨PKind.web, "q1", 3⟩,
       ⟨PKind.competition, "q1", 5⟩, ⟨PKind.dataset, "q1", 5⟩] ∧
    (∀ c ∈ (search_sources_traced trivEnv oneQueryState).2,
      c.kind ≠ PKind.notebook ∧ c.kind ≠ PKind.discussion) ∧
    ¬(∃ c ∈ (search_sources_traced trivEnv oneQueryState).2,
       c.kind = PKind.competition ∧ c.n = 3) := by
  decide

/-- Claim C1, amended.  In every search round, for each sub-query of the
most recent batch (the last 5 sub-queries), `_search_sources` queries the
academic provider for 3 results, the web provider for 3, the
platform-competition provider for 5 (its adapter default) and the
platform-dataset provider for 5 (its adapter default), in that order;
every provider invocation of the round (including the rewrite
sub-routine's arxiv/web re-searches with 3 each) is one of those four
kinds with that fixed fan-out, and the notebook and discussion providers
are never invoked. -/
theorem search_fanout (env : Env) (s : ResearchState) :
    (∀ c ∈ (search_sources_traced env s).2,
      (c.kind = PKind.arxiv ∧ c.n = 3) ∨ (c.kind = PKind.web ∧ c.n = 3) ∨
        (c.kind = PKind.competition ∧ c.n = 5) ∨
        (c.kind = PKind.dataset ∧ c.n = 5)) ∧
    (∀ q ∈ lastN 5 s.subqueries,
      per_query_calls q <:+: (search_sources_traced env s).2) := by
  constructor
  · intro c hc
    exact mem_trace_calls hc
  · intro q hq
    have h1 : per_query_calls q <:+:
        ((lastN 5 s.subqueries).map per_query_calls).flatten :=
      List.infix_of_mem_flatten (List.mem_map_of_mem _ hq)
    exact h1.trans (List.prefix_append _ _).isInfix

/-- Witness for the amended C1 at a concrete environment and state. -/
theorem search_fanout_witness :
    (((⟨PKind.arxiv, "q1", 3⟩ : ProviderCall).kind = PKind.arxiv ∧
        (⟨PKind.arxiv, "q1", 3⟩ : ProviderCall).n = 3) ∨
      ((⟨PKind.arxiv, "q1", 3⟩ : ProviderCall).kind = PKind.web ∧
        (⟨PKind.arxiv, "q1", 3⟩ : ProviderCall).n = 3) ∨
      ((⟨PKind.arxiv, "q1", 3⟩ : ProviderCall).kind = PKind.competition ∧
        (⟨PKind.arxiv, "q1", 3⟩ : ProviderCall).n = 5) ∨
      ((⟨PKind.arxiv, "q1", 3⟩ : ProviderCall).kind = PKind.dataset ∧
        (⟨PKind.arxiv, "q1", 3⟩ : ProviderCall).n = 5)) ∧
    per_query_calls "q1" <:+: (search_sources_traced trivEnv oneQueryState).2 :=
  ⟨(search_fanout trivEnv oneQueryState).1 ⟨PKind.arxiv, "q1", 3⟩ (by decide),
   (search_fanout trivEnv oneQueryState).2 "q1" (by decide)⟩

/-- Claim C2.  From any reachable deep-dive configuration: the stage is
re-entered only when the depth after the just-completed round is still
below `MAX_DEPTH` and that round strictly increased the number of
`arxiv-deep` (academic-followup) records; and when the just-completed
round produced zero followup records, the only possible transition is to
verification. -/
theorem deep_dive_reentry (env : Env) (q : String) (s : ResearchState)
    (hreach : Reachable env q (Stage.deepdiving, s)) :
    (Step env (Stage.deepdiving, s) (Stage.deepdiving, deep_dive env s) →
      (deep_dive env s).depth < MAX_DEPTH ∧
        countDeep s < countDeep (deep_dive env s)) ∧
    (countDeep (deep_dive env s) = countDeep s →
      ∀ c', Step env (Stage.deepdiving, s) c' →
        c' = (Stage.verifying, deep_dive env s)) := by
  have hInv := reachable_inv hreach
  have hD := hInv.2.2.2.2 rfl
  dsimp only at hD
  obtain ⟨add, hres, hfresh, hsrc, -⟩ := deep_dive_spec env s
  have hcnt : countDeep (deep_dive env s) =
      countDeep s + (add.filter fun r => r.source == "arxiv-deep").length := by
    unfold countDeep
    rw [hres, List.filter_append, List.length_append]
  constructor
  · intro hstep
    cases hstep with
    | dive_loop _ hg =>
      obtain ⟨hd2, hne⟩ := continue_dive_loop hg
      refine ⟨hd2, ?_⟩
      have hdep0 : s.depth = 0 := by
        rw [deep_dive_depth] at hd2
        dsimp only [MAX_DEPTH] at hd2 ⊢
        split at hd2 <;> omega
      have hc0 : countDeep s = 0 := hD.2 hdep0
      rw [hcnt, hc0]
      have hlen : (add.filter fun r => r.source == "arxiv-deep").length ≠ 0 := by
        intro h0
        apply hne
        unfold countDeep at hc0
        rw [hres, List.filter_append, List.length_eq_zero.mp hc0,
          List.length_eq_zero.mp h0]
        rfl
      omega
  · intro hzero c' hstep
    cases hstep with
    | dive_loop _ hg =>
      exfalso
      obtain ⟨hd2, hne⟩ := continue_dive_loop hg
      have hlen : (add.filter fun r => r.source == "arxiv-deep").length = 0 := by
        omega
      rcases Nat.lt_or_ge s.depth 1 with h0 | h1
      · have hc0 : countDeep s = 0 := hD.2 (by omega)
        apply hne
        unfold countDeep at hc0
        rw [hres, List.filter_append, List.length_eq_zero.mp hc0,
          List.length_eq_zero.mp hlen]
        rfl
      · have hdd : (deep_dive env s).depth = s.depth + 1 := by
          rw [deep_dive_depth, if_pos (by dsimp only [MAX_DEPTH]; omega)]
        dsimp only [MAX_DEPTH] at hd2
        omega
    | dive_verify _ _ => rfl

/-- The run of `loopEnv` reaches the deep-dive stage in state
`loopDiveState`. -/
theorem loop_dive_reachable :
    Reachable loopEnv "lq" (Stage.deepdiving, loopDiveState) := by
  unfold Reachable
  exact .head (.plan _) (.head (.search _) (.head (.eval_dive _ (by decide)) .refl))

/-- Witness for C2: in `loopEnv`'s run the deep-dive loop actually
re-enters once, and the theorem's conclusion holds there. -/
theorem deep_dive_reentry_witness :
    (deep_dive loopEnv loopDiveState).depth < MAX_DEPTH ∧
      countDeep loopDiveState < countDeep (deep_dive loopEnv loopDiveState) :=
  (deep_dive_reentry loopEnv "lq" loopDiveState loop_dive_reachable).1
    (Step.dive_loop _ (by decide))

/-- Claim C3.  Whenever the coverage oracle's response contains the
sufficiency sentinel anywhere, the evaluator sets `needs_more_search`
to false and `gaps` to `[]`, and the only transition out of the
evaluation stage goes to the deep-dive stage — regardless of the
remaining iteration budget. -/
theorem sufficiency_sentinel (env : Env) (s : ResearchState)
    (h : strContains (env.coverage_response (s.search_results.take 30) s.query)
      "SUFFICIENT" = true) :
    (evaluate_coverage env s).needs_more_search = false ∧
    (evaluate_coverage env s).gaps = [] ∧
    ∀ c', Step env (Stage.evaluating, s) c' →
      c' = (Stage.deepdiving, evaluate_coverage env s) := by
  have hev : evaluate_coverage env s =
      { s with needs_more_search := false, gaps := [] } := by
    simp only [evaluate_coverage]
    rw [if_pos h]
  refine ⟨by rw [hev], by rw [hev], ?_⟩
  intro c' hstep
  cases hstep with
  | eval_loop _ hg =>
    exfalso
    have hb := (continue_search_loop hg).1
    rw [hev] at hb
    exact Bool.noConfusion hb
  | eval_dive _ _ => rfl

/-- Witness for C3 at a concrete environment whose oracle answers with the
sentinel. -/
theorem sufficiency_sentinel_witness :
    (evaluate_coverage suffEnv (initial_state "sq")).needs_more_search = false ∧
    (evaluate_coverage suffEnv (initial_state "sq")).gaps = [] ∧
    ∀ c', Step suffEnv (Stage.evaluating, initial_state "sq") c' →
      c' = (Stage.deepdiving, evaluate_coverage suffEnv (initial_state "sq")) :=
  sufficiency_sentinel suffEnv (initial_state "sq") (by decide)

/-- Claim C4.  The iteration counter starts at 0, each planning round
increments it exactly once, every reachable state satisfies
`iteration ≤ MAX_ITERATIONS` (with MAX_ITERATIONS = 3; the lower bound
0 ≤ iteration holds by the counter being a natural number), and no
transition enters the planning stage with `iteration` already at
`MAX_ITERATIONS`. -/
theorem iteration_bounds (env : Env) (q : String) :
    (initial_state q).iteration = 0 ∧
    (∀ s, (generate_subqueries env s).iteration = s.iteration + 1) ∧
    (∀ c, Reachable env q c → c.2.iteration ≤ MAX_ITERATIONS) ∧
    (∀ c s', Step env c (Stage.planning, s') → s'.iteration < MAX_ITERATIONS) := by
  refine ⟨rfl, fun s => rfl, ?_, ?_⟩
  · intro c h
    exact (reachable_inv h).1
  · intro c s' hstep
    cases hstep with
    | eval_loop _ hg => exact (continue_search_loop hg).2

/-- Witness for C4 at the degenerate environment: the initial state, a
planning increment, a reachable bound, and the first loop-back to
planning. -/
theorem iteration_bounds_witness :
    (initial_state "tq").iteration = 0 ∧
    (generate_subqueries trivEnv (initial_state "tq")).iteration =
      (initial_state "tq").iteration + 1 ∧
    ((Stage.planning, initial_state "tq") : Config).2.iteration ≤ MAX_ITERATIONS ∧
    (evaluate_coverage trivEnv (search_sources trivEnv
      (generate_subqueries trivEnv (initial_state "tq")))).iteration <
        MAX_ITERATIONS :=
  ⟨(iteration_bounds trivEnv "tq").1,
   (iteration_bounds trivEnv "tq").2.1 _,
   (iteration_bounds trivEnv "tq").2.2.1 _ Relation.ReflTransGen.refl,
   (iteration_bounds trivEnv "tq").2.2.2 _ _ (Step.eval_loop _ (by decide))⟩

/-- Claim C5.  Every reachable state satisfies `depth ≤ MAX_DEPTH` (with
MAX_DEPTH = 2; 0 ≤ depth holds by the counter being a natural number),
and entering the deep-dive stage with `depth ≥ MAX_DEPTH` is a no-op
that leaves the state unchanged. -/
theorem depth_bounds (env : Env) (q : String) :
    (∀ c, Reachable env q c → c.2.depth ≤ MAX_DEPTH) ∧
    (∀ s, MAX_DEPTH ≤ s.depth → deep_dive env s = s) := by
  refine ⟨fun c h => (reachable_inv h).2.1, fun s h => by simp [deep_dive, h]⟩

/-- Witness for C5: the bound at the initial configuration, and the no-op
behaviour at a state of depth 2. -/
theorem depth_bounds_witness :
    ((Stage.planning, initial_state "dq") : Config).2.depth ≤ MAX_DEPTH ∧
    deep_dive trivEnv depthTwoState = depthTwoState :=
  ⟨(depth_bounds trivEnv "dq").1 _ Relation.ReflTransGen.refl,
   (depth_bounds trivEnv "dq").2 depthTwoState (by decide)⟩

/-- Claim C6.  A deep-dive round appends a batch of `arxiv-deep`
(academic-followup) records whose insertion respects the freshness
discipline (`InsertedFresh`): each record is added only when its url is
not in the explored set at the moment of insertion, and its url is added
to the explored set immediately; in particular every added record's url
is outside the round's initial explored set and inside its final one, and
every selected anchor's url is explored by the end of the round. -/
theorem deep_dive_dedup (env : Env) (s : ResearchState) :
    ∃ add, (deep_dive env s).search_results = s.search_results ++ add ∧
      InsertedFresh s.explored_urls add (deep_dive env s).explored_urls ∧
      (∀ r ∈ add, r.source = "arxiv-deep" ∧
        r.url ∈ (deep_dive env s).explored_urls ∧ r.url ∉ s.explored_urls) ∧
      (s.depth < MAX_DEPTH → ∀ a ∈ dive_anchors env s,
        a.url ∈ (deep_dive env s).explored_urls) := by
  obtain ⟨add, h1, h2, h3, h4⟩ := deep_dive_spec env s
  exact ⟨add, h1, h2,
    fun r hr => ⟨h3 r hr, inserted_fresh_mem_url h2 r hr,
      inserted_fresh_not_mem_init h2 r hr⟩, h4⟩

/-- Witness for C6 at a deep-dive round that actually adds a followup. -/
theorem deep_dive_dedup_witness :
    ∃ add, (deep_dive loopEnv loopDiveState).search_results =
        loopDiveState.search_results ++ add ∧
      InsertedFresh loopDiveState.explored_urls add
        (deep_dive loopEnv loopDiveState).explored_urls ∧
      (∀ r ∈ add, r.source = "arxiv-deep" ∧
        r.url ∈ (deep_dive loopEnv loopDiveState).explored_urls ∧
        r.url ∉ loopDiveState.explored_urls) ∧
      (loopDiveState.depth < MAX_DEPTH → ∀ a ∈ dive_anchors loopEnv loopDiveState,
        a.url ∈ (deep_dive loopEnv loopDiveState).explored_urls) :=
  deep_dive_dedup loopEnv loopDiveState

/-- Claim C7.  Every provider adapter is a total function into result
lists — a backend failure is absorbed at the adapter boundary and
surfaces as the empty list, and the authenticated-guarded Kaggle adapters
return the empty list when unauthenticated. -/
theorem provider_failures_degrade (q e : String) (n : Nat)
    (bA bW bD bN bX : Backend)
    (bC : String → Except String (List ProviderRecord)) (auth : Bool) :
    (bA q n = .error e → search_arxiv bA q n = []) ∧
    (bW q n = .error e → search_web bW q n = []) ∧
    (bC q = .error e → kaggle_search_competitions auth bC q n = []) ∧
    (bD q n = .error e → kaggle_search_datasets auth bD q n = []) ∧
    (bN q n = .error e → kaggle_search_notebooks auth bN q n = []) ∧
    (bX ("site:kaggle.com/discussions " ++ q) n = .error e →
      kaggle_search_discussions bX q n = []) ∧
    kaggle_search_competitions false bC q n = [] ∧
    kaggle_search_datasets false bD q n = [] ∧
    kaggle_search_notebooks false bN q n = [] := by
  refine ⟨?_, ?_, ?_, ?_, ?_, ?_, rfl, rfl, rfl⟩
  · intro h
    unfold search_arxiv
    rw [h]
  · intro h
    unfold search_web
    rw [h]
  · intro h
    unfold kaggle_search_competitions
    rw [h]
    split <;> rfl
  · intro h
    unfold kaggle_search_datasets
    rw [h]
    split <;> rfl
  · intro h
    unfold kaggle_search_notebooks
    rw [h]
    split <;> rfl
  · intro h
    unfold kaggle_search_discussions
    rw [h]

/-- Witness for C7 on concrete failing backends. -/
theorem provider_failures_degrade_witness :
    search_arxiv failingBackend "q" 3 = [] ∧
    search_web failingBackend "q" 3 = [] ∧
    kaggle_search_competitions true failingBackend1 "q" 5 = [] ∧
    kaggle_search_datasets true failingBackend "q" 5 = [] ∧
    kaggle_search_notebooks true failingBackend "q" 5 = [] ∧
    kaggle_search_discussions failingBackend "q" 10 = [] ∧
    kaggle_search_competitions false failingBackend1 "q" 5 = [] :=
  ⟨(provider_failures_degrade "q" "network failure" 3 failingBackend
      failingBackend failingBackend failingBackend failingBackend
      failingBackend1 true).1 rfl,
   (provider_failures_degrade "q" "network failure" 3 failingBackend
      failingBackend failingBackend failingBackend failingBackend
      failingBackend1 true).2.1 rfl,
   (provider_failures_degrade "q" "network failure" 5 failingBackend
      failingBackend failingBackend failingBackend failingBackend
      failingBackend1 true).2.2.1 rfl,
   (provider_failures_degrade "q" "network failure" 5 failingBackend
      failingBackend failingBackend failingBackend failingBackend
      failingBackend1 true).2.2.2.1 rfl,
   (provider_failures_degrade "q" "network failure" 5 failingBackend
      failingBackend failingBackend failingBackend failingBackend
      failingBackend1 true).2.2.2.2.1 rfl,
   (provider_failures_degrade "q" "network failure" 10 failingBackend
      failingBackend failingBackend failingBackend failingBackend
      failingBackend1 true).2.2.2.2.2.1 rfl,
   (provider_failures_degrade "q" "network failure" 5 failingBackend
      failingBackend failingBackend failingBackend failingBackend
      failingBackend1 false).2.2.2.2.2.2.1⟩

/-- Claim C8.  With deterministic stub collaborators, the workflow is
deterministic: any two complete runs on the same initial query reach the
same final state. -/
theorem run_deterministic (env : Env) (q : String) (s₁ s₂ : ResearchState)
    (h1 : Reachable env q (Stage.done, s₁))
    (h2 : Reachable env q (Stage.done, s₂)) : s₁ = s₂ :=
  reaches_done_unique h1 h2

/-- The degenerate run reaches the terminal stage in `trivFinalState`. -/
theorem triv_run_reaches_done :
    Reachable trivEnv "tq" (Stage.done, trivFinalState) := by
  unfold Reachable
  exact .head (.plan _) (.head (.search _) (.head (.eval_loop _ (by decide))
    (.head (.plan _) (.head (.search _) (.head (.eval_loop _ (by decide))
    (.head (.plan _) (.head (.search _) (.head (.eval_dive _ (by decide))
    (.head (.dive_verify _ (by decide)) (.head (.verify _)
    (.head (.outline _) (.head (.compose _) .refl))))))))))))

/-- Witness for C8: two (identical) complete runs of the degenerate
environment yield the same final state. -/
theorem run_deterministic_witness : trivFinalState = trivFinalState :=
  run_deterministic trivEnv "tq" trivFinalState trivFinalState
    triv_run_reaches_done triv_run_reaches_done

/-- Claim C9.  The anchor-selection pool of a deep-dive round is the full
list of unexplored academic records, not merely the 10 candidates shown
to the oracle: with eleven accumulated academic records and an oracle
that returns the title of the eleventh, that record — which is outside
the 10-title window and whose title was never presented — is selected as
the (only) anchor, and its url is marked explored by the round. -/
theorem anchor_pool_unwindowed :
    (dive_candidates elevenState).length = 11 ∧
    dive_anchors envNine elevenState = [mkArxivRecord "T10" "u10"] ∧
    mkArxivRecord "T10" "u10" ∉ (dive_candidates elevenState).take 10 ∧
    "T10" ∉ ((dive_candidates elevenState).take 10).map SourceRecord.title ∧
    "u10" ∈ (deep_dive envNine elevenState).explored_urls := by
  decide

/-- Claim C10.  The search round performs no url-based deduplication:
with providers returning url "u" both for the original sub-query and for
its low-yield rewrite, and with a record with url "u" already
accumulated, all three records are present afterwards; in general the
previously accumulated results are preserved as a prefix and every
provider record of the round is appended. -/
theorem no_url_dedup :
    ((search_sources envTen dupState).search_results =
      [{ query := "q0", source := "web", title := "T0", url := "u", content := "" },
       { query := "q1", source := "arxiv", title := "T1", url := "u", content := "" },
       { query := "q2", source := "arxiv", title := "T2", url := "u", content := "" }]) ∧
    (((search_sources envTen dupState).search_results.filter
        fun r => r.url == "u").length = 3) ∧
    (∀ (env : Env) (s : ResearchState),
      s.search_results <+: (search_sources env s).search_results) := by
  refine ⟨by decide, by decide, ?_⟩
  intro env s
  rw [search_sources_results]
  exact (List.prefix_append _ _).trans (List.prefix_append _ _)

end KuraryuDR
